import Mathlib

/-!
# Verification of the `modifier` crate's dispatch protocol

Shallow embedding of `src/lib.rs` of the `rust-modifier` crate. Rust's
`&mut F` mutation is modelled by explicit state passing: a method that
mutates a target of type `F` in place becomes a Lean function `F → F`.
`usize`/`u32` fields only ever receive stored values (no arithmetic) except
in the `U` example, where `u32` arithmetic is taken modulo `2 ^ 32`.

The crate's `lib.rs` declares `mod impls;`, but `impls.rs` itself is not
part of the sources available here; the combinator `impl`s that live in it
(tuple sequences, `Option`, function wrappers, the `ModifierBox` blanket
implementation and the boxed/collection instances) are modelled from the
specification, as marked on each definition.
-/

namespace ModifierLib

/-- Rust trait `Modifier<F: ?Sized>` (src/lib.rs lines 10-13): a type `M`
implementing it for a target `F` provides `fn modify(self, &mut F)`,
consuming the modifier by value and mutating the target in place.
In the state-passing embedding, `modify : M → F → F` returns the
mutated target. -/
class Modifier (M : Type u) (F : Type v) : Type (max u v) where
  modify : M → F → F

/-- Rust trait `ModifierBox<F: ?Sized>` (src/lib.rs lines 53-56):
`fn modify_box(self: Box<Self>, &mut F)`. A `Box` around a sized value
is the value itself in the embedding, so `modify_box : M → F → F`. -/
class ModifierBox (M : Type u) (F : Type v) : Type (max u v) where
  modify_box : M → F → F

/-- Rust trait `Set` (src/lib.rs lines 58-76): a marker trait a target type
opts into; `set` and `set_mut` are its default methods, declared below. -/
class Set (F : Type v) : Type where

/-- `Set::set` (src/lib.rs lines 63-67):
`fn set<M: Modifier<Self>>(mut self, modifier: M) -> Self`
with body `modifier.modify(&mut self); self` — consume the target,
apply the modifier once, return the mutated target by value. -/
def Set.set {F : Type v} [Set F] {M : Type u} [Modifier M F] (self : F) (modifier : M) : F :=
  Modifier.modify modifier self

/-- `Set::set_mut` (src/lib.rs lines 70-75):
`fn set_mut<M: Modifier<Self>>(&mut self, modifier: M) -> &mut Self`
with body `modifier.modify(self); self` — apply the modifier through the
mutable reference and return that same reference. In state passing, the
returned reference denotes the mutated target state. -/
def Set.set_mut {F : Type v} [Set F] {M : Type u} [Modifier M F] (self : F) (modifier : M) : F :=
  Modifier.modify modifier self

/-- Modelled from the spec: the tuple-sequence combinator of the missing
`impls.rs` at arity two — `impl Modifier<F> for (A, B)` when both `A` and
`B` implement `Modifier<F>`; each element's `modify` is applied in declared
left-to-right order against the same progressively-mutated target. -/
instance instModifierPair {A : Type u} {B : Type w} {F : Type v}
    [Modifier A F] [Modifier B F] : Modifier (A × B) F where
  modify p f := Modifier.modify p.2 (Modifier.modify p.1 f)

/-- Modelled from the spec: the tuple-sequence combinator of the missing
`impls.rs` at arity three — `impl Modifier<F> for (A, B, C)`, applying the
three elements' `modify` in declared left-to-right order. -/
instance instModifierTriple {A : Type u} {B : Type w} {C : Type x} {F : Type v}
    [Modifier A F] [Modifier B F] [Modifier C F] : Modifier (A × B × C) F where
  modify p f := Modifier.modify p.2.2 (Modifier.modify p.2.1 (Modifier.modify p.1 f))

/-- Modelled from the spec: the optional combinator of the missing
`impls.rs` — `impl Modifier<F> for Option<M>`; if present, delegate to the
wrapped modifier's `modify`; if absent, do nothing. -/
instance instModifierOption {M : Type u} {F : Type v} [Modifier M F] :
    Modifier (Option M) F where
  modify o f :=
    match o with
    | some m => Modifier.modify m f
    | none => f

/-- Modelled from the spec: the function-wrapper combinator of the missing
`impls.rs` — a pure target-by-value-to-target-by-value transformation used
as a modifier; `modify` reads the target out of the reference, invokes the
function, and writes the result back, so in state passing it is exactly
application of the function. -/
instance instModifierFun {F : Type v} : Modifier (F → F) F where
  modify g f := g f

/-- Modelled from the spec: the blanket derivation of the missing
`impls.rs` — every `M: Modifier<F>` automatically implements
`ModifierBox<F>`, with `modify_box` delegating to `modify`. -/
instance (priority := low) instModifierBoxBlanket {M : Type u} {F : Type v}
    [Modifier M F] : ModifierBox M F where
  modify_box m f := Modifier.modify m f

/-- A heap-held, type-erased handle `Box<ModifierBox<F>>`: an existential
package of a concrete modifier type, a value of it, and its `ModifierBox`
capability, with the concrete type hidden from the call site. -/
structure BoxedModifierBox (F : Type v) : Type (max (u + 1) v) where
  M : Type u
  val : M
  inst : ModifierBox M F

/-- `Box::new(m)` coerced to `Box<ModifierBox<F>>`: erase the concrete
type of a modifier behind the handle, using the blanket `ModifierBox`
capability. -/
def boxMod (F : Type v) {M : Type u} [ModifierBox M F] (m : M) :
    BoxedModifierBox F :=
  ⟨M, m, inferInstance⟩

/-- Modelled from the spec: the missing `impls.rs`'s
`impl Modifier<F> for Box<ModifierBox<F>>` — the erased handle itself
satisfies `Modifier` by delegating to the erased `modify_box` operation. -/
instance instModifierBoxed {F : Type v} : Modifier (BoxedModifierBox F) F where
  modify b f := b.inst.modify_box b.val f

/-- Modelled from the spec: a dynamically-sized ordered collection of
erased handles (`Vec<Box<ModifierBox<F>>>`) satisfies `Modifier` by
applying each handle's erased operation in order, first to last. -/
instance instModifierBoxedList {F : Type v} :
    Modifier (List (BoxedModifierBox F)) F where
  modify l f := l.foldl (fun f b => Modifier.modify b f) f

/-! ## Test scaffolding from `src/lib.rs` (`mod test` and the doc example) -/

/-- `struct Thing { x: usize }` from the test module. -/
structure Thing : Type where
  x : Nat
  deriving DecidableEq, Repr

/-- `struct BiggerThing { first: usize, second: usize }` from the test module. -/
structure BiggerThing : Type where
  first : Nat
  second : Nat
  deriving DecidableEq, Repr

instance : Set Thing where

instance : Set BiggerThing where

/-- `struct ModifyX(usize)` from the test module. -/
structure ModifyX : Type where
  val : Nat
  deriving DecidableEq, Repr

/-- `struct ModifyFirst(usize)` from the test module. -/
structure ModifyFirst : Type where
  val : Nat
  deriving DecidableEq, Repr

/-- `struct ModifySecond(usize)` from the test module. -/
structure ModifySecond : Type where
  val : Nat
  deriving DecidableEq, Repr

/-- `impl Modifier<Thing> for ModifyX { fn modify(self, thing) { thing.x = self.0 } }`. -/
instance : Modifier ModifyX Thing where
  modify m t := { t with x := m.val }

/-- `impl Modifier<BiggerThing> for ModifyFirst`. -/
instance : Modifier ModifyFirst BiggerThing where
  modify m t := { t with first := m.val }

/-- `impl Modifier<BiggerThing> for ModifySecond`. -/
instance : Modifier ModifySecond BiggerThing where
  modify m t := { t with second := m.val }

/-- `struct U(u32)` from the `ModifierBox` doc example; the `u32` is a
`Nat` kept below `2 ^ 32` by the operations. -/
structure U : Type where
  val : Nat
  deriving DecidableEq, Repr

instance : Set U where

/-- `struct Increment` from the `ModifierBox` doc example. -/
structure Increment : Type where
  deriving DecidableEq, Repr

/-- `struct Decrement` from the `ModifierBox` doc example. -/
structure Decrement : Type where
  deriving DecidableEq, Repr

/-- `impl Modifier<U> for Increment { fn modify(self, u) { u.0 += 1 } }`,
with `u32` wrap-around made explicit. -/
instance : Modifier Increment U where
  modify _ u := ⟨(u.val + 1) % 2 ^ 32⟩

/-- `impl Modifier<U> for Decrement { fn modify(self, u) { u.0 -= 1 } }`,
with `u32` wrap-around made explicit. -/
instance : Modifier Decrement U where
  modify _ u := ⟨(u.val + (2 ^ 32 - 1)) % 2 ^ 32⟩

end ModifierLib

/-! ## Claims -/

namespace ModifierLib

/-- Claim C1: for every target type opting into `Set` and every modifier
`m` implementing `Modifier` for it, `set` consumes target and modifier by
value, applies `m`'s mutation exactly once and returns the mutated target,
while `set_mut` applies the mutation through the mutable reference and
returns that same reference; concretely `{x: 6}` after `set_mut` with
`ModifyX(8)` has `x = 8`, and a subsequent `set` with `ModifyX(9)` returns
`{x: 9}`. -/
theorem claim_C1_set_and_set_mut :
    (∀ (F M : Type) [Set F] [Modifier M F] (t : F) (m : M),
        Set.set t m = Modifier.modify m t ∧ Set.set_mut t m = Modifier.modify m t)
    ∧ Set.set_mut (Thing.mk 6) (ModifyX.mk 8) = Thing.mk 8
    ∧ Set.set (Set.set_mut (Thing.mk 6) (ModifyX.mk 8)) (ModifyX.mk 9) = Thing.mk 9 :=
  ⟨fun _ _ _ _ _ _ => ⟨rfl, rfl⟩, rfl, rfl⟩

/-- Claim C2: the pair sequence combinator applies its elements' `modify`
in declared left-to-right order against the same progressively-mutated
target, so `t.set((a, b))` equals applying `b` after `a`; concretely
`{x: 8}.set((ModifyX(5), ModifyX(112)))` yields `{x: 112}`, and with the
unequal modifiers swapped the result differs (order sensitivity). -/
theorem claim_C2_tuple_order :
    (∀ (F A B : Type) [Set F] [Modifier A F] [Modifier B F] (t : F) (a : A) (b : B),
        Set.set t (a, b) = Modifier.modify b (Modifier.modify a t))
    ∧ Set.set (Thing.mk 8) (ModifyX.mk 5, ModifyX.mk 112) = Thing.mk 112
    ∧ ModifyX.mk 5 ≠ ModifyX.mk 112
    ∧ Set.set (Thing.mk 8) (ModifyX.mk 5, ModifyX.mk 112)
        ≠ Set.set (Thing.mk 8) (ModifyX.mk 112, ModifyX.mk 5) :=
  ⟨fun _ _ _ _ _ _ _ _ _ => rfl, rfl, by decide, by decide⟩

/-- Claim C3: for any target value `t` and modifier `m`, consuming by
value via `t.set(m)` and mutating in place via `set_mut` produce target
values with identical observable state. -/
theorem claim_C3_set_refines_set_mut :
    ∀ (F M : Type) [Set F] [Modifier M F] (t : F) (m : M),
      Set.set t m = Set.set_mut t m :=
  fun _ _ _ _ _ _ => rfl

/-- Claim C4: the optional combinator: `t.set(None)` leaves the target
unchanged (strict no-op), and `t.set(Some(m))` equals `t.set(m)`. -/
theorem claim_C4_option_combinator :
    ∀ (F M : Type) [Set F] [Modifier M F] (t : F),
      Set.set t (none : Option M) = t ∧ ∀ m : M, Set.set t (some m) = Set.set t m :=
  fun _ _ _ _ _ => ⟨rfl, fun _ => rfl⟩

/-- Claim C5: every `Modifier` implementor automatically satisfies the
runtime-erased `ModifierBox` capability (the blanket derivation delegates
`modify_box` to `modify`), and erasure is transparent: `t.set(m)` and
`t.set(Box::new(m))` produce identical resulting target state. -/
theorem claim_C5_box_transparent :
    ∀ (F M : Type) [Set F] [Modifier M F] (t : F) (m : M),
      (∀ f : F, ModifierBox.modify_box m f = Modifier.modify m f)
      ∧ Set.set t (boxMod F m) = Set.set t m :=
  fun _ _ _ _ _ _ => ⟨fun _ => rfl, rfl⟩

/-- Claim C6: the function-wrapper combinator turns a pure
target-to-target transformation `f` into a modifier; `t.set_mut(f)`
mutates the target to exactly `f(t_before)` (the returned reference
denoting that mutated state). -/
theorem claim_C6_fn_wrapper :
    ∀ (F : Type) [Set F] (f : F → F) (t : F), Set.set_mut t f = f t :=
  fun _ _ _ _ => rfl

/-- Claim C7: a dynamically-sized ordered collection of runtime-erased
modifier handles itself satisfies the `Modifier` contract: the empty
collection is a no-op, and applying `b :: l` applies `b`'s erased
operation first and then the rest in order against the same target. -/
theorem claim_C7_boxed_collection :
    ∀ (F : Type) [Set F] (t : F),
      Set.set t ([] : List (BoxedModifierBox F)) = t
      ∧ ∀ (b : BoxedModifierBox F) (l : List (BoxedModifierBox F)),
          Set.set t (b :: l) = Set.set (Modifier.modify b t) l :=
  fun _ _ _ => ⟨rfl, fun _ _ => rfl⟩

/-- Claim C8: the protocol has no failure channel: given a total `modify`,
`set` and `set_mut` always complete normally with a result, which is
exactly one application of `modify` — the dispatch entry points introduce
no error result or exceptional branch of their own. -/
theorem claim_C8_no_failure_channel :
    ∀ (F M : Type) [Set F] [Modifier M F] (t : F) (m : M),
      ∃ r : F, Set.set t m = r ∧ Set.set_mut t m = r ∧ r = Modifier.modify m t :=
  fun _ _ _ im t m => ⟨im.modify m t, rfl, rfl, rfl⟩

/-- Claim C9: combinators compose under erasure: a boxed handle may wrap a
pair sequence combinator and applying it applies the elements in order;
concretely `Thing {x: 8}` set with `Box::new((ModifyX(2), ModifyX(3)))`
yields `x = 3`, the last element's effect winning. -/
theorem claim_C9_boxed_sequence :
    (∀ (F A B : Type) [Set F] [Modifier A F] [Modifier B F] (t : F) (a : A) (b : B),
        Set.set t (boxMod F (a, b)) = Modifier.modify b (Modifier.modify a t))
    ∧ Set.set (Thing.mk 8) (boxMod Thing (ModifyX.mk 2, ModifyX.mk 3)) = Thing.mk 3 :=
  ⟨fun _ _ _ _ _ _ _ _ _ => rfl, rfl⟩

/-- Claim C10: the sequence combinator exists at arity three: a triple of
modifiers (including erased boxed handles) applies its elements left to
right; concretely `U(0)` set with the triple (boxed `Increment`, boxed
`Decrement`, boxed `Increment`) yields `U(1)`. -/
theorem claim_C10_triple_sequence :
    (∀ (F A B C : Type) [Set F] [Modifier A F] [Modifier B F] [Modifier C F]
        (t : F) (a : A) (b : B) (c : C),
        Set.set t (a, b, c)
          = Modifier.modify c (Modifier.modify b (Modifier.modify a t)))
    ∧ Set.set (U.mk 0) (boxMod U Increment.mk, boxMod U Decrement.mk, boxMod U Increment.mk)
        = U.mk 1 :=
  ⟨fun _ _ _ _ _ _ _ _ _ _ _ _ => rfl, by decide⟩

end ModifierLib
